import Mathlib

/-!
Verification development for the state-of-being ingestion and merge engine.

The definitions below are a shallow embedding of `src/healthkit.ts` and
`src/location.ts`:

* JSON values are modelled by the inductive `SOB.Json` (JS numbers appear in
  this code base only as compared values, never computed with, so they are
  modelled as `Int`); a metric record (`HealthMetricData`) is the key/value
  list of its JSON object, in insertion order, as `SOB.Rec`.
* `JSON.stringify` is modelled by `SOB.jstr` (string escaping is the identity,
  which is faithful for the payloads considered here).
* The injected writer/reader capabilities are modelled by a pure store
  `SOB.Store` mapping a file path to the parsed record list of that file;
  `readExistingData`'s fallback (missing or invalid file reads as an empty
  record list) is folded into the store abstraction.  Writes are returned
  explicitly so that "the writer was never invoked" is directly observable.
* The injected notifier is `SOB.Notifier : String → Except String Unit`; a
  `.error` result models a rejected promise.  The ingestion functions `await`
  the notifier without a surrounding try/catch, so a notifier `.error`
  short-circuits into the `.result` field of the output, exactly as an
  uncaught rejection would propagate to the caller of the TypeScript function.
* `getCurrentDate` lives in `src/time.ts`, which is not part of the sources;
  it is modelled from the spec as an explicit clock parameter (see
  `SOB.ingestLocationDataFromIssue`).
-/

namespace SOB

/-- JSON values.  JS numbers are modelled as `Int`: the source never performs
arithmetic on metric values, it only compares and serializes them. -/
inductive Json where
  | null : Json
  | bool : Bool → Json
  | num : Int → Json
  | str : String → Json
  | arr : List Json → Json
  | obj : List (String × Json) → Json
  deriving Repr

mutual

/-- `JSON.stringify`, with the identity as string escaping. -/
def jstr : Json → String
  | .null => "null"
  | .bool true => "true"
  | .bool false => "false"
  | .num n => toString n
  | .str s => "\"" ++ s ++ "\""
  | .arr xs => "[" ++ jstrList xs ++ "]"
  | .obj kvs => "\x7b" ++ jstrObj kvs ++ "\x7d"

/-- Serialization of a JSON array's elements, comma separated. -/
def jstrList : List Json → String
  | [] => ""
  | [x] => jstr x
  | x :: y :: xs => jstr x ++ "," ++ jstrList (y :: xs)

/-- Serialization of a JSON object's key/value pairs, comma separated. -/
def jstrObj : List (String × Json) → String
  | [] => ""
  | [(k, v)] => "\"" ++ k ++ "\":" ++ jstr v
  | (k, v) :: y :: xs => "\"" ++ k ++ "\":" ++ jstr v ++ "," ++ jstrObj (y :: xs)

end

mutual

/-- Structural decidable equality for `Json` (the automatic derive handler
does not support this nested inductive). -/
def Json.decEq : (a b : Json) → Decidable (a = b)
  | .null, .null => isTrue rfl
  | .null, .bool _ => isFalse (fun h => Json.noConfusion h)
  | .null, .num _ => isFalse (fun h => Json.noConfusion h)
  | .null, .str _ => isFalse (fun h => Json.noConfusion h)
  | .null, .arr _ => isFalse (fun h => Json.noConfusion h)
  | .null, .obj _ => isFalse (fun h => Json.noConfusion h)
  | .bool _, .null => isFalse (fun h => Json.noConfusion h)
  | .bool a, .bool b =>
    if h : a = b then isTrue (by rw [h]) else isFalse (fun hh => h (by injection hh))
  | .bool _, .num _ => isFalse (fun h => Json.noConfusion h)
  | .bool _, .str _ => isFalse (fun h => Json.noConfusion h)
  | .bool _, .arr _ => isFalse (fun h => Json.noConfusion h)
  | .bool _, .obj _ => isFalse (fun h => Json.noConfusion h)
  | .num _, .null => isFalse (fun h => Json.noConfusion h)
  | .num _, .bool _ => isFalse (fun h => Json.noConfusion h)
  | .num a, .num b =>
    if h : a = b then isTrue (by rw [h]) else isFalse (fun hh => h (by injection hh))
  | .num _, .str _ => isFalse (fun h => Json.noConfusion h)
  | .num _, .arr _ => isFalse (fun h => Json.noConfusion h)
  | .num _, .obj _ => isFalse (fun h => Json.noConfusion h)
  | .str _, .null => isFalse (fun h => Json.noConfusion h)
  | .str _, .bool _ => isFalse (fun h => Json.noConfusion h)
  | .str _, .num _ => isFalse (fun h => Json.noConfusion h)
  | .str a, .str b =>
    if h : a = b then isTrue (by rw [h]) else isFalse (fun hh => h (by injection hh))
  | .str _, .arr _ => isFalse (fun h => Json.noConfusion h)
  | .str _, .obj _ => isFalse (fun h => Json.noConfusion h)
  | .arr _, .null => isFalse (fun h => Json.noConfusion h)
  | .arr _, .bool _ => isFalse (fun h => Json.noConfusion h)
  | .arr _, .num _ => isFalse (fun h => Json.noConfusion h)
  | .arr _, .str _ => isFalse (fun h => Json.noConfusion h)
  | .arr xs, .arr ys =>
    match Json.decEqList xs ys with
    | isTrue h => isTrue (by rw [h])
    | isFalse h => isFalse (fun hh => h (by injection hh))
  | .arr _, .obj _ => isFalse (fun h => Json.noConfusion h)
  | .obj _, .null => isFalse (fun h => Json.noConfusion h)
  | .obj _, .bool _ => isFalse (fun h => Json.noConfusion h)
  | .obj _, .num _ => isFalse (fun h => Json.noConfusion h)
  | .obj _, .str _ => isFalse (fun h => Json.noConfusion h)
  | .obj _, .arr _ => isFalse (fun h => Json.noConfusion h)
  | .obj xs, .obj ys =>
    match Json.decEqObj xs ys with
    | isTrue h => isTrue (by rw [h])
    | isFalse h => isFalse (fun hh => h (by injection hh))

/-- Decidable equality for lists of `Json`. -/
def Json.decEqList : (xs ys : List Json) → Decidable (xs = ys)
  | [], [] => isTrue rfl
  | [], _ :: _ => isFalse (fun h => List.noConfusion h)
  | _ :: _, [] => isFalse (fun h => List.noConfusion h)
  | x :: xs, y :: ys =>
    match Json.decEq x y with
    | isFalse h => isFalse (fun hh => h (by injection hh))
    | isTrue h1 =>
      match Json.decEqList xs ys with
      | isTrue h2 => isTrue (by rw [h1, h2])
      | isFalse h => isFalse (fun hh => h (by injection hh))

/-- Decidable equality for JSON object bodies. -/
def Json.decEqObj : (xs ys : List (String × Json)) → Decidable (xs = ys)
  | [], [] => isTrue rfl
  | [], _ :: _ => isFalse (fun h => List.noConfusion h)
  | _ :: _, [] => isFalse (fun h => List.noConfusion h)
  | (k1, v1) :: xs, (k2, v2) :: ys =>
    if hk : k1 = k2 then
      match Json.decEq v1 v2 with
      | isFalse h =>
        isFalse (fun hh => h (by injection hh with h1 h2; exact congrArg Prod.snd h1))
      | isTrue h1 =>
        match Json.decEqObj xs ys with
        | isTrue h2 => isTrue (by rw [hk, h1, h2])
        | isFalse h => isFalse (fun hh => h (by injection hh))
    else isFalse (fun hh => hk (by injection hh with h1 h2; exact congrArg Prod.fst h1))

end

instance : DecidableEq Json := Json.decEq

/-- A health metric record (`HealthMetricData`): the key/value list of its
JSON object, in insertion order.  The Zod data schemas guarantee that the
`date` field, when present, is a string. -/
abbrev Rec := List (String × Json)

/-- JS property access `item[k]`: `some v` when the key is present,
`none` (i.e. `undefined`) otherwise. -/
def jget (item : Rec) (k : String) : Option Json := item.lookup k

/-- JS `k in item`. -/
def hasKey (item : Rec) (k : String) : Bool := (jget item k).isSome

/-- `item.date` combined with JS truthiness: `some d` when the record has a
non-empty string `date`, `none` when the field is absent or the empty string
(both falsy in `if (date)` and in `item.date || ...`). -/
def truthyDate (item : Rec) : Option String :=
  match jget item "date" with
  | some (.str s) => if s = "" then none else some s
  | _ => none

/-- `getItemIdentifier` (healthkit.ts:239-241): `item.date ||
JSON.stringify(item)`. -/
def getItemIdentifier (item : Rec) : String :=
  match truthyDate item with
  | some d => d
  | none => jstr (.obj item)

/-- `isIncompleteSleepEntry` (healthkit.ts:246-258): has `source` and `date`,
none of the sleep-specific fields, and exactly two keys. -/
def isIncompleteSleepEntry (item : Rec) : Bool :=
  if hasKey item "source" && hasKey item "date" then
    let hasSleepFields :=
      hasKey item "totalSleep" || hasKey item "inBedStart" || hasKey item "sleepStart"
    if !hasSleepFields then item.length == 2 else false
  else false

/-- The date-keyed group of `newMetricsByDate` (healthkit.ts:272-281): the
map entry for `d` holds exactly the new records with truthy date `d`, in
input order. -/
def newMetricsForDate (newMetrics : List Rec) (d : String) : List Rec :=
  newMetrics.filter (fun item => truthyDate item == some d)

/-- The predicate of the existing-records filter of `deduplicateMetrics`
(healthkit.ts:284-308). -/
def keepExisting (newMetrics : List Rec) (existing : Rec) : Bool :=
  match truthyDate existing with
  | none => true
  | some d =>
    let newMetricsForThisDate := newMetricsForDate newMetrics d
    if newMetricsForThisDate.isEmpty then true
    else if isIncompleteSleepEntry existing then false
    else
      !(newMetricsForThisDate.any
          (fun newItem => getItemIdentifier newItem == getItemIdentifier existing))

/-- Result of `deduplicateMetrics`. -/
structure DedupResult where
  filteredNewMetrics : List Rec
  filteredExistingMetrics : List Rec
  deriving Repr, DecidableEq

/-- `deduplicateMetrics` (healthkit.ts:264-324): filter the existing records
against the new batch, then filter the new records against the identifiers of
the kept existing records. -/
def deduplicateMetrics (existingMetrics newMetrics : List Rec) : DedupResult :=
  let filteredExistingMetrics := existingMetrics.filter (keepExisting newMetrics)
  let existingIdentifiers := filteredExistingMetrics.map getItemIdentifier
  let filteredNewMetrics := newMetrics.filter
    (fun item => !(existingIdentifiers.contains (getItemIdentifier item)))
  ⟨filteredNewMetrics, filteredExistingMetrics⟩

/-- `METRIC_TO_FILE_MAP` (healthkit.ts:132-137). -/
def METRIC_TO_FILE_MAP : List (String × String) :=
  [("heart_rate", "hr.json"),
   ("heart_rate_variability", "hrv.json"),
   ("body_temperature", "bodySurfaceTemp.json"),
   ("sleep_analysis", "sleep.json")]

/-- `getMetricFilePath` (healthkit.ts:192-201). -/
def getMetricFilePath (metricName basePath : String) : Option String :=
  match METRIC_TO_FILE_MAP.lookup metricName with
  | none => none
  | some fileName => some (basePath ++ "/" ++ fileName)

/-- Zod `.optional()` number field: absent is fine, present must be a number. -/
def optNumField (item : Rec) (k : String) : Bool :=
  match jget item k with
  | none => true
  | some (.num _) => true
  | some _ => false

/-- Zod `.optional()` string field. -/
def optStrField (item : Rec) (k : String) : Bool :=
  match jget item k with
  | none => true
  | some (.str _) => true
  | some _ => false

/-- Zod required number field. -/
def reqNumField (item : Rec) (k : String) : Bool :=
  match jget item k with
  | some (.num _) => true
  | _ => false

/-- Zod required string field. -/
def reqStrField (item : Rec) (k : String) : Bool :=
  match jget item k with
  | some (.str _) => true
  | _ => false

/-- `HeartRateDataSchema` (healthkit.ts:8-14), passthrough. -/
def validHeartRateData (j : Json) : Bool :=
  match j with
  | .obj item =>
    optNumField item "Max" && optNumField item "Avg" && optNumField item "Min" &&
      optStrField item "source" && reqStrField item "date"
  | _ => false

/-- `HeartRateVariabilityDataSchema` (healthkit.ts:16-19), passthrough. -/
def validHeartRateVariabilityData (j : Json) : Bool :=
  match j with
  | .obj item => reqNumField item "qty" && reqStrField item "date"
  | _ => false

/-- `SleepAnalysisDataSchema` (healthkit.ts:21-35), passthrough. -/
def validSleepAnalysisData (j : Json) : Bool :=
  match j with
  | .obj item =>
    optStrField item "inBedStart" && optNumField item "awake" &&
      optStrField item "source" && optStrField item "sleepStart" &&
      optNumField item "totalSleep" && optStrField item "sleepEnd" &&
      reqStrField item "date" && optNumField item "deep" &&
      optNumField item "rem" && optStrField item "inBedEnd" &&
      optNumField item "inBed" && optNumField item "core" &&
      optNumField item "asleep"
  | _ => false

/-- `BodyTemperatureDataSchema` (healthkit.ts:37-40), passthrough. -/
def validBodyTemperatureData (j : Json) : Bool :=
  match j with
  | .obj item => reqStrField item "date" && reqNumField item "qty"
  | _ => false

/-- A metric entry as accepted by `LenientMetricSchema` (healthkit.ts:84-88):
a declared kind name, units, and a raw data array. -/
structure RawMetric where
  name : String
  units : String
  data : List Json
  deriving Repr, DecidableEq

/-- `HealthMetricSchema.safeParse(metric).success` (healthkit.ts:75-80,346):
the discriminated union on `name`, checking the literal `units` and every
data item against the kind's data schema. -/
def validateMetric (m : RawMetric) : Bool :=
  if m.name = "heart_rate" then
    m.units == "count/min" && m.data.all validHeartRateData
  else if m.name = "heart_rate_variability" then
    m.units == "ms" && m.data.all validHeartRateVariabilityData
  else if m.name = "sleep_analysis" then
    m.units == "hr" && m.data.all validSleepAnalysisData
  else if m.name = "body_temperature" then
    m.units == "degC" && m.data.all validBodyTemperatureData
  else false

/-- The data items of a metric as records.  When `validateMetric` holds every
item is a JSON object, so this is exactly the validated `metric.data`
(passthrough keeps all fields). -/
def dataRecords (m : RawMetric) : List Rec :=
  m.data.filterMap (fun j => match j with | .obj kvs => some kvs | _ => none)

/-- The vault, as seen through the injected reader/writer: the parsed record
list of each metric file (`readExistingData` yields `[]` for a missing,
unreadable or schema-invalid file, which the abstraction folds in). -/
abbrev Store := String → List Rec

/-- Outcome of `processMetric`: the `{success, message}` pair and the write
performed through the injected writer, if any. -/
structure PMResult where
  success : Bool
  message : String
  write : Option (String × List Rec)
  deriving Repr

/-- The file name shown in the saved-entries message:
`getMetricFilePath(...)?.split("/").pop()` (healthkit.ts:377), i.e. the file
name from the kind map. -/
def metricFileName (metricName : String) : String :=
  (METRIC_TO_FILE_MAP.lookup metricName).getD ""

/-- `processMetric` (healthkit.ts:329-386): route, validate strictly,
deduplicate against the stored file, and either skip, report no new data, or
write the merged list. -/
def processMetric (metric : RawMetric) (basePath : String) (store : Store) : PMResult :=
  match getMetricFilePath metric.name basePath with
  | none => ⟨true, "Skipping unknown metric: " ++ metric.name, none⟩
  | some filePath =>
    if !(validateMetric metric) then
      ⟨true, "Skipping unknown metric: " ++ metric.name, none⟩
    else
      let existingMetrics := store filePath
      let r := deduplicateMetrics existingMetrics (dataRecords metric)
      if r.filteredNewMetrics.isEmpty then
        ⟨true, "No new data for " ++ metric.name ++ " (already ingested)", none⟩
      else
        let mergedData := r.filteredExistingMetrics ++ r.filteredNewMetrics
        let incompleteReplaced := existingMetrics.length - r.filteredExistingMetrics.length
        let baseMsg := "Saved " ++ toString r.filteredNewMetrics.length ++
          " new entries for " ++ metric.name ++ " to " ++ metricFileName metric.name
        let msg :=
          if incompleteReplaced > 0 then
            baseMsg ++ " (replaced " ++ toString incompleteReplaced ++ " incomplete " ++
              (if incompleteReplaced == 1 then "entry" else "entries") ++ ")"
          else baseMsg
        ⟨true, msg, some (filePath, mergedData)⟩

/-- The store after a `processMetric` outcome: unchanged when no write
happened, otherwise the target file holds the written content. -/
def storeAfter (store : Store) (pm : PMResult) : Store :=
  match pm.write with
  | none => store
  | some (p, content) => fun q => if q = p then content else store q

/-- An issue body: either text that `JSON.parse` rejects (carrying the
engine's exception message) or the parsed JSON value. -/
inductive BodyParse where
  | invalid : String → BodyParse
  | parsed : Json → BodyParse
  deriving Repr, DecidableEq

/-- An issue-tracker ticket `{title, body}` (the optional `createdAt` is
never read by the ingestion code). -/
structure Issue where
  title : String
  body : BodyParse
  deriving Repr

/-- One metric entry of `HealthDataExportSchema`'s `data.metrics` array
(`LenientMetricSchema`): an object with a string `name`, string `units` and
an array `data`; anything else fails the lenient parse. -/
def parseLenientMetric (j : Json) : Option RawMetric :=
  match j with
  | .obj kvs =>
    match jget kvs "name", jget kvs "units", jget kvs "data" with
    | some (.str n), some (.str u), some (.arr d) => some ⟨n, u, d⟩
    | _, _, _ => none
  | _ => none

/-- `HealthDataExportSchema.safeParse` (healthkit.ts:90-94): the body must be
an object whose `data.metrics` is an array of lenient metric entries. -/
def exportMetrics (j : Json) : Option (List RawMetric) :=
  match j with
  | .obj kvs =>
    match jget kvs "data" with
    | some (.obj dataKvs) =>
      match jget dataKvs "metrics" with
      | some (.arr ms) => ms.mapM parseLenientMetric
      | _ => none
    | _ => none
  | _ => none

/-- `parseHealthData` (healthkit.ts:160-187).  Zod's per-field error text is
abstracted to a fixed detail string; the `Validation failed: ` and
`Error parsing health data: ` prefixes are the source's. -/
def parseHealthData (body : BodyParse) : Except String (List RawMetric) :=
  match body with
  | .invalid msg => .error ("Error parsing health data: " ++ msg)
  | .parsed j =>
    match exportMetrics j with
    | none => .error ("Validation failed: " ++ "data.metrics: Invalid input")
    | some ms => .ok ms

/-- The injected notifier capability; `.error` models a rejected promise. -/
abbrev Notifier := String → Except String Unit

/-- A terminal `{success, message}` outcome. -/
structure IngestResult where
  success : Bool
  message : String
  deriving Repr, DecidableEq

/-- Observable outcome of a health ingestion run: the returned pair (or the
uncaught exception), the writes performed through the injected writer in
order, the notifier messages attempted in order, and the resulting store. -/
structure IngestOut where
  result : Except String IngestResult
  writes : List (String × List Rec)
  comments : List String
  store : Store

/-- Character-list prefix test. -/
def isPrefixList : List Char → List Char → Bool
  | [], _ => true
  | _ :: _, [] => false
  | a :: as, b :: bs => a == b && isPrefixList as bs

/-- Substring occurrence over character lists. -/
def containsSub (pat s : List Char) : Bool :=
  isPrefixList pat s ||
    (match s with
     | [] => false
     | _ :: rest => containsSub pat rest)

/-- `String.prototype.includes`, used by the orchestrator to classify skip
messages (healthkit.ts:439). -/
def strContains (s pat : String) : Bool := containsSub pat.data s.data

/-- Accumulated outcome of the per-metric loop: the `results` and `skipped`
message buckets, the writes performed, and the store after them. -/
structure BatchOut where
  results : List String
  skipped : List String
  writes : List (String × List Rec)
  store : Store

/-- The per-metric loop of `ingestHealthDataFromIssue` (healthkit.ts:428-451).
In this embedding the injected reader/writer are total, so `processMetric`
always reports success and the `errors` bucket is provably empty and
omitted. -/
def processAllMetrics (metrics : List RawMetric) (basePath : String) (store : Store) :
    BatchOut :=
  match metrics with
  | [] => ⟨[], [], [], store⟩
  | m :: rest =>
    let pm := processMetric m basePath store
    let tail := processAllMetrics rest basePath (storeAfter store pm)
    let writes1 := match pm.write with | none => tail.writes | some w => w :: tail.writes
    if strContains pm.message "Skipping unknown metric" then
      ⟨tail.results, pm.message :: tail.skipped, writes1, tail.store⟩
    else
      ⟨pm.message :: tail.results, tail.skipped, writes1, tail.store⟩

/-- An attempted notifier call followed by a return value: the message is
recorded as attempted, and a notifier rejection propagates as the uncaught
exception of the whole ingestion call. -/
def commentThenReturn (commenter : Option Notifier) (msg : String) (res : IngestResult) :
    Except String IngestResult × List String :=
  match commenter with
  | none => (.ok res, [])
  | some c =>
    match c msg with
    | .ok _ => (.ok res, [msg])
    | .error ex => (.error ex, [msg])

/-- `ingestHealthDataFromIssue` (healthkit.ts:391-485). -/
def ingestHealthDataFromIssue (issue : Issue) (store : Store)
    (commenter : Option Notifier) (basePath : String) : IngestOut :=
  if issue.title = "HealthDataExport" then
    match parseHealthData issue.body with
    | .error errorMsg =>
      let rc := commentThenReturn commenter ("❌ " ++ errorMsg) ⟨false, errorMsg⟩
      ⟨rc.1, [], rc.2, store⟩
    | .ok metrics =>
      let b := processAllMetrics metrics basePath store
      let successComment := "✅ Successfully ingested health data!\n\n" ++
        String.intercalate "\n" ((b.results ++ b.skipped).map (fun r => "- " ++ r))
      let finalMsg := "Successfully ingested health data:\n" ++
        String.intercalate "\n" (b.results ++ b.skipped)
      let rc := commentThenReturn commenter successComment ⟨true, finalMsg⟩
      ⟨rc.1, b.writes, rc.2, b.store⟩
  else
    ⟨.ok ⟨true, "Issue not intended for this processor"⟩, [], [], store⟩

/-- `LocationData` (location.ts:9-12): the validated `{city, country}` body. -/
structure LocationData where
  city : String
  country : String
  deriving Repr, DecidableEq

/-- `LocationEntry` (location.ts:14-18). -/
structure LocationEntry where
  date : String
  city : String
  country : String
  deriving Repr, DecidableEq

/-- `parseLocationData` (location.ts:55-82): the body must be an object with
string `city` and `country` (extra keys are stripped, not rejected).  Zod's
error text is abstracted as in `parseHealthData`. -/
def parseLocationData (body : BodyParse) : Except String LocationData :=
  match body with
  | .invalid msg => .error ("Error parsing location data: " ++ msg)
  | .parsed j =>
    match j with
    | .obj kvs =>
      match jget kvs "city", jget kvs "country" with
      | some (.str ci), some (.str co) => .ok ⟨ci, co⟩
      | _, _ => .error ("Validation failed: " ++ "city: Invalid input")
    | _ => .error ("Validation failed: " ++ "Expected object")

/-- `getLastLocationEntry` (location.ts:120-125). -/
def getLastLocationEntry (locationData : List LocationEntry) : Option LocationEntry :=
  locationData.getLast?

/-- Observable outcome of a location ingestion run: the returned pair (or
uncaught exception), the single write performed if any, and the notifier
messages attempted. -/
structure LocOut where
  result : Except String IngestResult
  write : Option (List LocationEntry)
  comments : List String

/-- `ingestLocationDataFromIssue` (location.ts:130-204).  `existingLocations`
is the parsed stored file (with `readExistingLocationData`'s empty fallback
folded in); `currentDate` is modelled from the spec: `getCurrentDate` (from
`src/time.ts`, not among the sources) returns the current processing date at
day granularity, passed here as an explicit clock value. -/
def ingestLocationDataFromIssue (issue : Issue) (existingLocations : List LocationEntry)
    (currentDate : String) (commenter : Option Notifier) : LocOut :=
  if issue.title = "LocationDataExport" then
    match parseLocationData issue.body with
    | .error errorMsg =>
      let rc := commentThenReturn commenter ("❌ " ++ errorMsg) ⟨false, errorMsg⟩
      ⟨rc.1, none, rc.2⟩
    | .ok locationData =>
      if (match getLastLocationEntry existingLocations with
          | some le => le.city == locationData.city
          | none => false) then
        let message := "Location not updated: " ++ locationData.city ++ ", " ++
          locationData.country ++ " is the same as the last entry"
        let rc := commentThenReturn commenter ("ℹ️ " ++ message) ⟨true, message⟩
        ⟨rc.1, none, rc.2⟩
      else
        let newEntry : LocationEntry :=
          ⟨currentDate, locationData.city, locationData.country⟩
        let updatedLocations := existingLocations ++ [newEntry]
        let successMessage := "✅ Successfully updated location!\n\nAdded: " ++
          locationData.city ++ ", " ++ locationData.country ++ " (" ++ currentDate ++ ")"
        let rc := commentThenReturn commenter successMessage ⟨true, successMessage⟩
        ⟨rc.1, some updatedLocations, rc.2⟩
  else
    ⟨.ok ⟨true, "Issue not intended for this processor"⟩, none, []⟩

/-- `createGitHubCommenter` (github.ts): wraps the HTTP post and catches any
failure (logged, never rethrown), so the returned notifier never rejects. -/
def createGitHubCommenter (post : Notifier) : Notifier :=
  fun comment =>
    match post comment with
    | .ok _ => .ok ()
    | .error _ => .ok ()

/-- At most one record per distinct truthy `date` value. -/
def atMostOnePerDate (l : List Rec) : Prop :=
  ∀ d : String, l.countP (fun r => truthyDate r == some d) ≤ 1

/-! Concrete inputs used by witnesses and counterexamples. -/

/-- The empty vault: every file reads as an empty record list. -/
def emptyStore : Store := fun _ => []

/-- A stored complete heart-rate record with Max 90 for 2025-10-27. -/
def hrStored90 : Rec :=
  [("Max", .num 90), ("Avg", .num 65), ("Min", .num 50),
   ("source", .str "Ultrahuman"), ("date", .str "2025-10-27 00:00:00 +0530")]

/-- A newly delivered heart-rate record with Max 100 for the same date. -/
def hrNew100 : Rec :=
  [("Max", .num 100), ("Avg", .num 70), ("Min", .num 55),
   ("source", .str "Apple Watch"), ("date", .str "2025-10-27 00:00:00 +0530")]

/-- A heart-rate record for 2025-10-27. -/
def hrItemRec : Rec :=
  [("Max", .num 96), ("Avg", .num 66), ("Min", .num 51),
   ("date", .str "2025-10-27 00:00:00 +0530")]

/-- A supported heart-rate metric entry carrying `hrItemRec`. -/
def hrMetric : RawMetric := ⟨"heart_rate", "count/min", [.obj hrItemRec]⟩

/-- An unsupported metric kind. -/
def unknownMetric : RawMetric := ⟨"unknown_metric", "unit", [.obj [("value", .num 1)]]⟩

/-- A batch of one unsupported kind and one supported heart-rate metric. -/
def mixedBatchIssue : Issue :=
  ⟨"HealthDataExport", .parsed (.obj [("data", .obj [("metrics", .arr
    [.obj [("name", .str "unknown_metric"), ("units", .str "unit"),
           ("data", .arr [.obj [("value", .num 1)]])],
     .obj [("name", .str "heart_rate"), ("units", .str "count/min"),
           ("data", .arr [.obj hrItemRec])]])])])⟩

/-- A heart-rate batch with one dated record and one record whose `date` is
the empty string (falsy in JS). -/
def blankDateMetric : RawMetric :=
  ⟨"heart_rate", "count/min", [.obj [("date", .str "d")], .obj [("date", .str "")]]⟩

/-- A heart-rate batch with a single dated record. -/
def singleDateMetric : RawMetric := ⟨"heart_rate", "count/min", [.obj [("date", .str "d")]]⟩

/-- A heart-rate metric with an empty data array. -/
def emptyDataMetric : RawMetric := ⟨"heart_rate", "count/min", []⟩

/-- A stored incomplete sleep entry: only source and date. -/
def incompleteSleepRec : Rec :=
  [("source", .str "ShivekPhone"), ("date", .str "2025-10-27 00:00:00 +0530")]

/-- A complete new sleep record for the same date. -/
def completeSleepRec : Rec :=
  [("totalSleep", .num 7), ("deep", .num 1), ("source", .str "ShivekPhone"),
   ("date", .str "2025-10-27 00:00:00 +0530")]

/-- A new HRV-like record. -/
def dupDateRec1 : Rec := [("qty", .num 1), ("date", .str "2025-10-27 00:00:00 +0530")]

/-- A second new record with the same date, different value. -/
def dupDateRec2 : Rec := [("qty", .num 2), ("date", .str "2025-10-27 00:00:00 +0530")]

/-- A record with a different date. -/
def otherDateRec : Rec := [("qty", .num 3), ("date", .str "2025-10-28 00:00:00 +0530")]

/-- A health issue whose body is not valid JSON. -/
def healthBadIssue : Issue := ⟨"HealthDataExport", .invalid "Unexpected token"⟩

/-- A location issue whose body is not valid JSON. -/
def locationBadIssue : Issue := ⟨"LocationDataExport", .invalid "Unexpected token"⟩

/-- A notifier whose calls always succeed. -/
def okNotifier : Notifier := fun _ => .ok ()

/-- A notifier whose calls always reject. -/
def failNotifier : Notifier := fun _ => .error "HTTP 500"

/-- A valid location observation for Mumbai. -/
def locMumbaiIssue : Issue :=
  ⟨"LocationDataExport", .parsed (.obj [("city", .str "Mumbai"), ("country", .str "India")])⟩

/-! Helper lemmas about the deduplication engine. -/

theorem getItemIdentifier_of_truthyDate {e : Rec} {d : String}
    (h : truthyDate e = some d) : getItemIdentifier e = d := by
  unfold getItemIdentifier
  rw [h]

/-- An existing record with truthy date `d` is dropped whenever the new batch
has a record with truthy date `d`: its date group is non-empty, and in the
complete branch the identifier comparison is date-against-date. -/
theorem keepExisting_eq_false {N : List Rec} {e n : Rec} {d : String}
    (hd : truthyDate e = some d) (hnN : n ∈ N) (hnd : truthyDate n = some d) :
    keepExisting N e = false := by
  have hmem : n ∈ newMetricsForDate N d := by
    unfold newMetricsForDate
    exact List.mem_filter.mpr ⟨hnN, by simp [hnd]⟩
  have hne : (newMetricsForDate N d).isEmpty = false := by
    rw [List.isEmpty_eq_false]
    intro hnil
    rw [hnil] at hmem
    cases hmem
  have hany : (newMetricsForDate N d).any
      (fun newItem => getItemIdentifier newItem == getItemIdentifier e) = true := by
    refine List.any_eq_true.mpr ⟨n, hmem, ?_⟩
    rw [getItemIdentifier_of_truthyDate hnd, getItemIdentifier_of_truthyDate hd]
    simp
  simp only [keepExisting, hd, hne, hany]
  cases hinc : isIncompleteSleepEntry e <;> simp

theorem mem_filteredExisting {E N : List Rec} {e : Rec} :
    e ∈ (deduplicateMetrics E N).filteredExistingMetrics ↔
      e ∈ E ∧ keepExisting N e = true := by
  unfold deduplicateMetrics
  exact List.mem_filter

theorem mem_filteredNew {E N : List Rec} {n : Rec} :
    n ∈ (deduplicateMetrics E N).filteredNewMetrics ↔
      n ∈ N ∧ ((E.filter (keepExisting N)).map getItemIdentifier).contains
        (getItemIdentifier n) = false := by
  unfold deduplicateMetrics
  rw [List.mem_filter]
  constructor
  · rintro ⟨h1, h2⟩
    refine ⟨h1, ?_⟩
    cases hc : (List.map getItemIdentifier (List.filter (keepExisting N) E)).contains
        (getItemIdentifier n)
    · rfl
    · rw [hc] at h2
      cases h2
  · rintro ⟨h1, h2⟩
    exact ⟨h1, by rw [h2]; rfl⟩

theorem contains_eq_false_iff {l : List String} {s : String} :
    l.contains s = false ↔ s ∉ l := by
  rw [show l.contains s = List.elem s l from rfl]
  constructor
  · intro h hmem
    rw [List.elem_iff.mpr hmem] at h
    cases h
  · intro h
    cases hc : List.elem s l
    · rfl
    · exact absurd (List.elem_iff.mp hc) h

theorem filteredExisting_def (E N : List Rec) :
    (deduplicateMetrics E N).filteredExistingMetrics = E.filter (keepExisting N) := rfl

theorem filteredNew_def (E N : List Rec) :
    (deduplicateMetrics E N).filteredNewMetrics =
      N.filter (fun item =>
        !(((E.filter (keepExisting N)).map getItemIdentifier).contains
            (getItemIdentifier item))) := rfl

/-- Any record of the new batch with a truthy date fails the existing-records
filter (its own date group is non-empty). -/
theorem keepExisting_self_false {N : List Rec} {m : Rec} {d : String}
    (hm : m ∈ N) (hmd : truthyDate m = some d) :
    keepExisting N m = false :=
  keepExisting_eq_false hmd hm hmd

/-- Re-running the existing-records filter on records that already survived it
changes nothing. -/
theorem filter_keepExisting_idem (E N : List Rec) :
    (E.filter (keepExisting N)).filter (keepExisting N) = E.filter (keepExisting N) := by
  rw [List.filter_eq_self]
  intro a ha
  exact (List.mem_filter.mp ha).2

/-- Core second-run lemma: when every new record has a truthy date, the dedup
of the previously written file against the same batch returns exactly the
previously kept existing records and the previously appended new records. -/
theorem dedup_second_run (E N : List Rec)
    (hN : ∀ n ∈ N, (truthyDate n).isSome) :
    deduplicateMetrics
        ((deduplicateMetrics E N).filteredExistingMetrics ++
          (deduplicateMetrics E N).filteredNewMetrics) N =
      deduplicateMetrics E N := by
  have hNkeep : ∀ m ∈ (deduplicateMetrics E N).filteredNewMetrics,
      keepExisting N m = false := by
    intro m hm
    have hmN : m ∈ N := (mem_filteredNew.mp hm).1
    obtain ⟨d, hd⟩ := Option.isSome_iff_exists.mp (hN m hmN)
    exact keepExisting_self_false hmN hd
  have hfilter2 :
      ((deduplicateMetrics E N).filteredExistingMetrics ++
        (deduplicateMetrics E N).filteredNewMetrics).filter (keepExisting N) =
        E.filter (keepExisting N) := by
    rw [List.filter_append]
    have h1 : (deduplicateMetrics E N).filteredExistingMetrics.filter (keepExisting N) =
        E.filter (keepExisting N) := by
      show ((E.filter (keepExisting N)).filter (keepExisting N)) = _
      exact filter_keepExisting_idem E N
    have h2 : (deduplicateMetrics E N).filteredNewMetrics.filter (keepExisting N) = [] := by
      rw [List.filter_eq_nil_iff]
      intro a ha
      rw [hNkeep a ha]
      simp
    rw [h1, h2, List.append_nil]
  unfold deduplicateMetrics at hfilter2 ⊢
  rw [hfilter2]

theorem storeAfter_write_none {store : Store} {pm : PMResult}
    (hw : pm.write = none) : storeAfter store pm = store := by
  unfold storeAfter
  rw [hw]

theorem storeAfter_write_some {store : Store} {pm : PMResult} {p : String} {c : List Rec}
    (hw : pm.write = some (p, c)) :
    storeAfter store pm = fun q => if q = p then c else store q := by
  unfold storeAfter
  rw [hw]

/-- `processMetric` on a kind missing from the file map: graceful skip. -/
theorem processMetric_unknown_kind {m : RawMetric} {basePath : String} {store : Store}
    (hpath : getMetricFilePath m.name basePath = none) :
    processMetric m basePath store =
      ⟨true, "Skipping unknown metric: " ++ m.name, none⟩ := by
  simp only [processMetric, hpath]

/-- `processMetric` on a kind that fails the strict schema: graceful skip. -/
theorem processMetric_invalid {m : RawMetric} {basePath : String} {store : Store} {fp : String}
    (hpath : getMetricFilePath m.name basePath = some fp) (hv : validateMetric m = false) :
    processMetric m basePath store =
      ⟨true, "Skipping unknown metric: " ++ m.name, none⟩ := by
  simp only [processMetric, hpath, hv, Bool.not_false, if_true]

/-- `processMetric` when deduplication leaves no new records: no write. -/
theorem processMetric_no_new_data {m : RawMetric} {basePath : String} {store : Store} {fp : String}
    (hpath : getMetricFilePath m.name basePath = some fp) (hv : validateMetric m = true)
    (hemp : (deduplicateMetrics (store fp) (dataRecords m)).filteredNewMetrics.isEmpty = true) :
    processMetric m basePath store =
      ⟨true, "No new data for " ++ m.name ++ " (already ingested)", none⟩ := by
  simp only [processMetric, hpath, hv, Bool.not_true, Bool.false_eq_true, if_false, hemp, if_true]

/-- `processMetric` in the write branch: the written content is the kept
existing records followed by the surviving new records. -/
theorem processMetric_write_branch {m : RawMetric} {basePath : String} {store : Store} {fp : String}
    (hpath : getMetricFilePath m.name basePath = some fp) (hv : validateMetric m = true)
    (hemp : (deduplicateMetrics (store fp) (dataRecords m)).filteredNewMetrics.isEmpty = false) :
    (processMetric m basePath store).write =
      some (fp, (deduplicateMetrics (store fp) (dataRecords m)).filteredExistingMetrics ++
        (deduplicateMetrics (store fp) (dataRecords m)).filteredNewMetrics) := by
  simp only [processMetric, hpath, hv, Bool.not_true, Bool.false_eq_true, if_false, hemp]

/-- The truthy date of every survivor of the existing filter differs from the
truthy date of every record of the new batch. -/
theorem survivor_date_ne {E N : List Rec} {x n : Rec} {d : String}
    (hx : x ∈ (deduplicateMetrics E N).filteredExistingMetrics)
    (hn : n ∈ N) (hnd : truthyDate n = some d) :
    truthyDate x ≠ some d := by
  intro hxd
  have hk := (mem_filteredExisting.mp hx).2
  rw [keepExisting_eq_false hxd hn hnd] at hk
  cases hk

theorem filteredExisting_sublist (E N : List Rec) :
    (deduplicateMetrics E N).filteredExistingMetrics.Sublist E := by
  rw [filteredExisting_def]
  exact List.filter_sublist E

theorem filteredNew_sublist (E N : List Rec) :
    (deduplicateMetrics E N).filteredNewMetrics.Sublist N := by
  rw [filteredNew_def]
  exact List.filter_sublist N

/-! Claim theorems. -/

/-- Claim C1, counterexample: re-ingesting the identical heart-rate batch
`[{date:"d"}, {date:""}]` into the file it produced changes the file content:
the empty-string date is falsy, so that record is deduplicated by full
serialization and the file is rewritten with the two records swapped. -/
theorem claim_C1_counterexample :
    storeAfter (storeAfter emptyStore (processMetric blankDateMetric "v" emptyStore))
        (processMetric blankDateMetric "v"
          (storeAfter emptyStore (processMetric blankDateMetric "v" emptyStore)))
        "v/hr.json" ≠
      storeAfter emptyStore (processMetric blankDateMetric "v" emptyStore) "v/hr.json" := by
  decide

/-- Claim C1 (amended): per metric file, when every record of the incoming
batch has a non-empty `date` string, running `processMetric` a second time on
the store produced by the first run leaves the store (hence every file's
content) unchanged. -/
theorem claim_C1_theorem (m : RawMetric) (basePath : String) (store : Store)
    (hN : ∀ r ∈ dataRecords m, (truthyDate r).isSome) :
    storeAfter (storeAfter store (processMetric m basePath store))
        (processMetric m basePath (storeAfter store (processMetric m basePath store))) =
      storeAfter store (processMetric m basePath store) := by
  cases hpath : getMetricFilePath m.name basePath with
  | none =>
    have h1 : (processMetric m basePath store).write = none := by
      rw [processMetric_unknown_kind hpath]
    rw [storeAfter_write_none h1, storeAfter_write_none h1]
  | some fp =>
    cases hv : validateMetric m with
    | false =>
      have h1 : (processMetric m basePath store).write = none := by
        rw [processMetric_invalid hpath hv]
      rw [storeAfter_write_none h1, storeAfter_write_none h1]
    | true =>
      cases hemp : (deduplicateMetrics (store fp) (dataRecords m)).filteredNewMetrics.isEmpty with
      | true =>
        have h1 : (processMetric m basePath store).write = none := by
          rw [processMetric_no_new_data hpath hv hemp]
        rw [storeAfter_write_none h1, storeAfter_write_none h1]
      | false =>
        have hw1 := processMetric_write_branch hpath hv hemp
        rw [storeAfter_write_some hw1]
        have hLfp : (fun q => if q = fp then
            (deduplicateMetrics (store fp) (dataRecords m)).filteredExistingMetrics ++
              (deduplicateMetrics (store fp) (dataRecords m)).filteredNewMetrics
            else store q) fp =
            (deduplicateMetrics (store fp) (dataRecords m)).filteredExistingMetrics ++
              (deduplicateMetrics (store fp) (dataRecords m)).filteredNewMetrics := by
          simp
        have hsec : deduplicateMetrics
            ((fun q => if q = fp then
              (deduplicateMetrics (store fp) (dataRecords m)).filteredExistingMetrics ++
                (deduplicateMetrics (store fp) (dataRecords m)).filteredNewMetrics
              else store q) fp) (dataRecords m) =
            deduplicateMetrics (store fp) (dataRecords m) := by
          rw [hLfp]
          exact dedup_second_run _ _ hN
        have hw2 := @processMetric_write_branch m basePath (fun q => if q = fp then
            (deduplicateMetrics (store fp) (dataRecords m)).filteredExistingMetrics ++
              (deduplicateMetrics (store fp) (dataRecords m)).filteredNewMetrics
            else store q) fp hpath hv (by rw [hsec]; exact hemp)
        rw [hsec] at hw2
        rw [storeAfter_write_some hw2]
        funext q
        by_cases hq : q = fp
        · simp [hq]
        · simp [hq]

/-- Claim C1, witness: the amended idempotence at a concrete one-record
heart-rate batch over the empty vault. -/
theorem claim_C1_witness :
    storeAfter (storeAfter emptyStore (processMetric singleDateMetric "v" emptyStore))
        (processMetric singleDateMetric "v"
          (storeAfter emptyStore (processMetric singleDateMetric "v" emptyStore))) =
      storeAfter emptyStore (processMetric singleDateMetric "v" emptyStore) :=
  claim_C1_theorem singleDateMetric "v" emptyStore (by decide)

/-- Claim C2, counterexample: the stored complete record `{Max:90,...}` is
dropped from the surviving existing records and the new `{Max:100,...}` for
the same date survives — the stored value is replaced, not retained. -/
theorem claim_C2_counterexample :
    hrStored90 ∉ (deduplicateMetrics [hrStored90] [hrNew100]).filteredExistingMetrics ∧
      hrNew100 ∈ (deduplicateMetrics [hrStored90] [hrNew100]).filteredNewMetrics := by
  decide

/-- Claim C2 (amended): the conflict policy is last-write-wins, not
first-write-wins.  For every stored record `e` with truthy date `D` (in a
stored file whose records all have truthy dates) and every new record `n`
with the same date `D`, the dedup engine drops `e` from the surviving
existing records and keeps `n` among the surviving new records, so the stored
value at `D` is replaced by the newly delivered one. -/
theorem claim_C2_theorem {E N : List Rec} {e n : Rec} {D : String}
    (hall : ∀ x ∈ E, (truthyDate x).isSome)
    (_he : e ∈ E) (hed : truthyDate e = some D)
    (hn : n ∈ N) (hnd : truthyDate n = some D) :
    e ∉ (deduplicateMetrics E N).filteredExistingMetrics ∧
      n ∈ (deduplicateMetrics E N).filteredNewMetrics := by
  constructor
  · intro hmem
    have hk := (mem_filteredExisting.mp hmem).2
    rw [keepExisting_eq_false hed hn hnd] at hk
    cases hk
  · refine mem_filteredNew.mpr ⟨hn, ?_⟩
    rw [getItemIdentifier_of_truthyDate hnd, contains_eq_false_iff]
    intro hmem
    obtain ⟨x, hx, hxid⟩ := List.mem_map.mp hmem
    have hxE := (List.mem_filter.mp hx).1
    have hxk := (List.mem_filter.mp hx).2
    obtain ⟨dx, hdx⟩ := Option.isSome_iff_exists.mp (hall x hxE)
    have hdxD : dx = D := by
      rw [getItemIdentifier_of_truthyDate hdx] at hxid
      exact hxid
    subst hdxD
    rw [keepExisting_eq_false hdx hn hnd] at hxk
    cases hxk

/-- Claim C2, witness: the amended last-write-wins claim at the concrete
Max-90 / Max-100 records. -/
theorem claim_C2_witness :
    hrStored90 ∉ (deduplicateMetrics [hrStored90] [hrNew100]).filteredExistingMetrics ∧
      hrNew100 ∈ (deduplicateMetrics [hrStored90] [hrNew100]).filteredNewMetrics :=
  claim_C2_theorem (D := "2025-10-27 00:00:00 +0530") (by decide) (by decide) (by decide)
    (List.mem_singleton.mpr rfl) (by decide)

/-- Claim C3: repair of incomplete sleep entries.  Given stored records (all
with truthy dates) including an incomplete record for date `D` and a single
new complete record for `D`, the merged list contains exactly one record with
date `D` — the new complete one — and the incomplete record is gone. -/
theorem claim_C3_theorem {E : List Rec} {e0 n : Rec} {D : String}
    (hall : ∀ x ∈ E, (truthyDate x).isSome)
    (he0 : e0 ∈ E) (hd0 : truthyDate e0 = some D)
    (hinc : isIncompleteSleepEntry e0 = true)
    (hnd : truthyDate n = some D)
    (hncomp : isIncompleteSleepEntry n = false) :
    ((deduplicateMetrics E [n]).filteredExistingMetrics ++
        (deduplicateMetrics E [n]).filteredNewMetrics).filter
          (fun r => truthyDate r == some D) = [n] ∧
      e0 ∉ ((deduplicateMetrics E [n]).filteredExistingMetrics ++
        (deduplicateMetrics E [n]).filteredNewMetrics) := by
  have _ := he0
  have hnmem : n ∈ ([n] : List Rec) := List.mem_singleton.mpr rfl
  have hN' : (deduplicateMetrics E [n]).filteredNewMetrics = [n] := by
    rw [filteredNew_def]
    rw [List.filter_eq_self]
    intro a ha
    rw [List.mem_singleton] at ha
    rw [ha]
    rw [getItemIdentifier_of_truthyDate hnd]
    have hcont : ((E.filter (keepExisting [n])).map getItemIdentifier).contains D = false := by
      rw [contains_eq_false_iff]
      intro hmem
      obtain ⟨x, hxf, hxid⟩ := List.mem_map.mp hmem
      have hxE := (List.mem_filter.mp hxf).1
      obtain ⟨dx, hdx⟩ := Option.isSome_iff_exists.mp (hall x hxE)
      rw [getItemIdentifier_of_truthyDate hdx] at hxid
      subst hxid
      exact survivor_date_ne (mem_filteredExisting.mpr ⟨hxE, (List.mem_filter.mp hxf).2⟩)
        hnmem hnd hdx
    rw [hcont]
    rfl
  have hEfilter : (deduplicateMetrics E [n]).filteredExistingMetrics.filter
      (fun r => truthyDate r == some D) = [] := by
    rw [List.filter_eq_nil_iff]
    intro x hx hbeq
    exact survivor_date_ne hx hnmem hnd (eq_of_beq hbeq)
  constructor
  · rw [List.filter_append, hEfilter, hN']
    simp [hnd]
  · intro hmem
    rcases List.mem_append.mp hmem with h | h
    · have hk := (mem_filteredExisting.mp h).2
      rw [keepExisting_eq_false hd0 hnmem hnd] at hk
      cases hk
    · rw [hN', List.mem_singleton] at h
      subst h
      rw [hinc] at hncomp
      cases hncomp

/-- Claim C3, witness: the repair property at the concrete incomplete
`{source, date}` entry and a complete sleep record for the same date. -/
theorem claim_C3_witness :
    ((deduplicateMetrics [incompleteSleepRec] [completeSleepRec]).filteredExistingMetrics ++
        (deduplicateMetrics [incompleteSleepRec] [completeSleepRec]).filteredNewMetrics).filter
          (fun r => truthyDate r == some "2025-10-27 00:00:00 +0530") = [completeSleepRec] ∧
      incompleteSleepRec ∉
        ((deduplicateMetrics [incompleteSleepRec] [completeSleepRec]).filteredExistingMetrics ++
          (deduplicateMetrics [incompleteSleepRec] [completeSleepRec]).filteredNewMetrics) :=
  claim_C3_theorem (by decide) (List.mem_singleton.mpr rfl) (by decide) (by decide)
    (by decide) (by decide)

/-- Claim C4, counterexample: with an existing list that trivially satisfies
the per-date uniqueness invariant and a new batch containing two records for
one date, the merged list contains two records with that date — the dedup
engine never deduplicates the new batch against itself. -/
theorem claim_C4_counterexample :
    ((deduplicateMetrics [] [dupDateRec1, dupDateRec2]).filteredExistingMetrics ++
        (deduplicateMetrics [] [dupDateRec1, dupDateRec2]).filteredNewMetrics).countP
      (fun r => truthyDate r == some "2025-10-27 00:00:00 +0530") = 2 := by
  decide

/-- Claim C4 (amended): per-date uniqueness of the merged list holds when the
new batch also contains at most one record per distinct truthy date. -/
theorem claim_C4_theorem {E N : List Rec}
    (hE : atMostOnePerDate E) (hN : atMostOnePerDate N) :
    atMostOnePerDate ((deduplicateMetrics E N).filteredExistingMetrics ++
      (deduplicateMetrics E N).filteredNewMetrics) := by
  intro d
  rw [List.countP_append]
  have h1 : (deduplicateMetrics E N).filteredExistingMetrics.countP
      (fun r => truthyDate r == some d) ≤ 1 :=
    le_trans (List.Sublist.countP_le _ (filteredExisting_sublist E N)) (hE d)
  have h2 : (deduplicateMetrics E N).filteredNewMetrics.countP
      (fun r => truthyDate r == some d) ≤ 1 :=
    le_trans (List.Sublist.countP_le _ (filteredNew_sublist E N)) (hN d)
  by_cases hboth : 0 < (deduplicateMetrics E N).filteredExistingMetrics.countP
      (fun r => truthyDate r == some d) ∧
      0 < (deduplicateMetrics E N).filteredNewMetrics.countP
        (fun r => truthyDate r == some d)
  · exfalso
    obtain ⟨e, he, hpe⟩ := List.countP_pos_iff.mp hboth.1
    obtain ⟨n, hn, hpn⟩ := List.countP_pos_iff.mp hboth.2
    have hed : truthyDate e = some d := eq_of_beq hpe
    have hnd : truthyDate n = some d := eq_of_beq hpn
    have hcont := (mem_filteredNew.mp hn).2
    rw [contains_eq_false_iff, getItemIdentifier_of_truthyDate hnd] at hcont
    apply hcont
    apply List.mem_map.mpr
    refine ⟨e, ?_, getItemIdentifier_of_truthyDate hed⟩
    rw [← filteredExisting_def E N]
    exact he
  · push_neg at hboth
    omega

/-- Claim C4, witness: the amended uniqueness at concrete single-record lists,
evaluated at the date they share with nothing. -/
theorem claim_C4_witness :
    ((deduplicateMetrics [dupDateRec1] [otherDateRec]).filteredExistingMetrics ++
        (deduplicateMetrics [dupDateRec1] [otherDateRec]).filteredNewMetrics).countP
      (fun r => truthyDate r == some "2025-10-27 00:00:00 +0530") ≤ 1 :=
  claim_C4_theorem (E := [dupDateRec1]) (N := [otherDateRec])
    (fun _ => List.countP_le_length _) (fun _ => List.countP_le_length _)
    "2025-10-27 00:00:00 +0530"

/-- Claim C5: the kept existing records are a subsequence of the stored list,
the surviving new records are a subsequence of the input batch, and whenever
`processMetric` writes, the written file is exactly kept-existing followed by
surviving-new — no sorting. -/
theorem claim_C5_theorem :
    (∀ E N : List Rec,
      (deduplicateMetrics E N).filteredExistingMetrics.Sublist E ∧
        (deduplicateMetrics E N).filteredNewMetrics.Sublist N) ∧
    (∀ (m : RawMetric) (basePath : String) (store : Store) (w : String × List Rec),
      (processMetric m basePath store).write = some w →
        w.2 = (deduplicateMetrics (store w.1) (dataRecords m)).filteredExistingMetrics ++
          (deduplicateMetrics (store w.1) (dataRecords m)).filteredNewMetrics) := by
  constructor
  · intro E N
    exact ⟨filteredExisting_sublist E N, filteredNew_sublist E N⟩
  · intro m basePath store w hw
    cases hpath : getMetricFilePath m.name basePath with
    | none =>
      rw [processMetric_unknown_kind hpath] at hw
      cases hw
    | some fp =>
      cases hv : validateMetric m with
      | false =>
        rw [processMetric_invalid hpath hv] at hw
        cases hw
      | true =>
        cases hemp :
            (deduplicateMetrics (store fp) (dataRecords m)).filteredNewMetrics.isEmpty with
        | true =>
          rw [processMetric_no_new_data hpath hv hemp] at hw
          cases hw
        | false =>
          rw [processMetric_write_branch hpath hv hemp] at hw
          injection hw with hw1
          rw [← hw1]

/-- Claim C5, witness: at the concrete Max-90 / Max-100 lists and the
concrete heart-rate write over the empty vault. -/
theorem claim_C5_witness :
    ((deduplicateMetrics [hrStored90] [hrNew100]).filteredExistingMetrics.Sublist [hrStored90] ∧
      (deduplicateMetrics [hrStored90] [hrNew100]).filteredNewMetrics.Sublist [hrNew100]) ∧
    ("v/hr.json", [hrItemRec]).2 =
      (deduplicateMetrics (emptyStore "v/hr.json")
          (dataRecords hrMetric)).filteredExistingMetrics ++
        (deduplicateMetrics (emptyStore "v/hr.json") (dataRecords hrMetric)).filteredNewMetrics :=
  ⟨claim_C5_theorem.1 [hrStored90] [hrNew100],
    claim_C5_theorem.2 hrMetric "v" emptyStore ("v/hr.json", [hrItemRec]) rfl⟩

/-! Orchestrator-level claim theorems. -/

theorem commentThenReturn_fst_ok {commenter : Option Notifier} {msg : String}
    {res : IngestResult}
    (hok : ∀ cm, commenter = some cm → ∀ s, cm s = Except.ok ()) :
    (commentThenReturn commenter msg res).1 = .ok res := by
  cases hcm : commenter with
  | none => rfl
  | some cm => simp only [commentThenReturn, hok cm hcm msg]

/-- Claim C6: with a matching title and a valid body, the location ingestion
succeeds, and the new observation is discarded (no write) exactly when the
stored file is non-empty and its last entry's city equals the new city
(case-sensitively; the country and all earlier entries play no role);
otherwise the entry appended is stamped with the current processing date,
never a date from the input. -/
theorem claim_C6_theorem (issue : Issue) (existing : List LocationEntry) (now : String)
    (commenter : Option Notifier) (ld : LocationData)
    (htitle : issue.title = "LocationDataExport")
    (hbody : parseLocationData issue.body = .ok ld)
    (hok : ∀ cm, commenter = some cm → ∀ s, cm s = Except.ok ()) :
    (ingestLocationDataFromIssue issue existing now commenter).result =
      .ok ⟨true,
        (if (match existing.getLast? with
              | some le => le.city == ld.city
              | none => false) = true then
          "Location not updated: " ++ ld.city ++ ", " ++ ld.country ++
            " is the same as the last entry"
         else "✅ Successfully updated location!\n\nAdded: " ++ ld.city ++ ", " ++
            ld.country ++ " (" ++ now ++ ")")⟩ ∧
      (ingestLocationDataFromIssue issue existing now commenter).write =
        (if (match existing.getLast? with
              | some le => le.city == ld.city
              | none => false) = true then none
         else some (existing ++ [⟨now, ld.city, ld.country⟩])) := by
  unfold ingestLocationDataFromIssue
  rw [if_pos htitle, hbody]
  unfold getLastLocationEntry
  cases hcond : (match existing.getLast? with
      | some le => le.city == ld.city
      | none => false) with
  | true =>
    simp only [hcond, if_true]
    exact ⟨commentThenReturn_fst_ok hok, trivial⟩
  | false =>
    simp only [hcond, Bool.false_eq_true, if_false]
    exact ⟨commentThenReturn_fst_ok hok, trivial⟩

/-- Claim C6, witness: appending Mumbai over an empty stored file, stamped
with the clock date. -/
theorem claim_C6_witness :
    (ingestLocationDataFromIssue locMumbaiIssue [] "2026-10-12" none).result =
        .ok ⟨true, "✅ Successfully updated location!\n\nAdded: Mumbai, India (2026-10-12)"⟩ ∧
      (ingestLocationDataFromIssue locMumbaiIssue [] "2026-10-12" none).write =
        some [⟨"2026-10-12", "Mumbai", "India"⟩] :=
  claim_C6_theorem locMumbaiIssue [] "2026-10-12" none ⟨"Mumbai", "India"⟩ rfl rfl
    (fun _ h => Option.noConfusion h)

/-- Claim C7: a metric kind absent from the file map is skipped with success
and no write, and a concrete batch of one unsupported kind plus one supported
heart-rate metric succeeds overall, writes the heart-rate file, and reports
the unsupported kind as skipped. -/
theorem claim_C7_theorem :
    (∀ (m : RawMetric) (basePath : String) (store : Store),
      getMetricFilePath m.name basePath = none →
      processMetric m basePath store =
        ⟨true, "Skipping unknown metric: " ++ m.name, none⟩) ∧
    ((ingestHealthDataFromIssue mixedBatchIssue emptyStore none "v").result =
        .ok ⟨true, "Successfully ingested health data:\nSaved 1 new entries for heart_rate to hr.json\nSkipping unknown metric: unknown_metric"⟩ ∧
      (ingestHealthDataFromIssue mixedBatchIssue emptyStore none "v").writes =
        [("v/hr.json", [hrItemRec])]) :=
  ⟨fun _ _ _ h => processMetric_unknown_kind h, rfl, rfl⟩

/-- Claim C7, witness: the unknown-kind skip at a concrete unsupported
metric. -/
theorem claim_C7_witness :
    processMetric unknownMetric "v" emptyStore =
      ⟨true, "Skipping unknown metric: unknown_metric", none⟩ :=
  claim_C7_theorem.1 unknownMetric "v" emptyStore rfl

/-- Claim C8: for both pipelines, a matching title with a body that fails
JSON parsing or shape validation yields `success = false` with the parse or
validation error as the message, a single attempted error notification, and
no write at all. -/
theorem claim_C8_theorem :
    (∀ (issue : Issue) (store : Store) (cm : Notifier) (basePath : String) (e : String),
      issue.title = "HealthDataExport" →
      parseHealthData issue.body = .error e →
      (∀ s, cm s = Except.ok ()) →
      (ingestHealthDataFromIssue issue store (some cm) basePath).result = .ok ⟨false, e⟩ ∧
        (ingestHealthDataFromIssue issue store (some cm) basePath).writes = [] ∧
        (ingestHealthDataFromIssue issue store (some cm) basePath).comments = ["❌ " ++ e] ∧
        ((∃ m, e = "Error parsing health data: " ++ m) ∨
          (∃ m, e = "Validation failed: " ++ m))) ∧
    (∀ (issue : Issue) (existing : List LocationEntry) (now : String) (cm : Notifier)
        (e : String),
      issue.title = "LocationDataExport" →
      parseLocationData issue.body = .error e →
      (∀ s, cm s = Except.ok ()) →
      (ingestLocationDataFromIssue issue existing now (some cm)).result = .ok ⟨false, e⟩ ∧
        (ingestLocationDataFromIssue issue existing now (some cm)).write = none ∧
        (ingestLocationDataFromIssue issue existing now (some cm)).comments = ["❌ " ++ e] ∧
        ((∃ m, e = "Error parsing location data: " ++ m) ∨
          (∃ m, e = "Validation failed: " ++ m))) := by
  constructor
  · intro issue store cm basePath e htitle hparse hok
    have hout : ingestHealthDataFromIssue issue store (some cm) basePath =
        ⟨.ok ⟨false, e⟩, [], ["❌ " ++ e], store⟩ := by
      unfold ingestHealthDataFromIssue
      rw [if_pos htitle, hparse]
      simp only [commentThenReturn, hok]
    rw [hout]
    refine ⟨rfl, rfl, rfl, ?_⟩
    cases hb : issue.body with
    | invalid msg =>
      left
      rw [hb] at hparse
      simp only [parseHealthData] at hparse
      injection hparse with h
      exact ⟨msg, h.symm⟩
    | parsed j =>
      right
      rw [hb] at hparse
      simp only [parseHealthData] at hparse
      cases hex : exportMetrics j with
      | none =>
        rw [hex] at hparse
        injection hparse with h
        exact ⟨"data.metrics: Invalid input", h.symm⟩
      | some ms =>
        rw [hex] at hparse
        cases hparse
  · intro issue existing now cm e htitle hparse hok
    have hout : ingestLocationDataFromIssue issue existing now (some cm) =
        ⟨.ok ⟨false, e⟩, none, ["❌ " ++ e]⟩ := by
      unfold ingestLocationDataFromIssue
      rw [if_pos htitle, hparse]
      simp only [commentThenReturn, hok]
    rw [hout]
    refine ⟨rfl, rfl, rfl, ?_⟩
    cases hb : issue.body with
    | invalid msg =>
      left
      rw [hb] at hparse
      simp only [parseLocationData] at hparse
      injection hparse with h
      exact ⟨msg, h.symm⟩
    | parsed j =>
      right
      rw [hb] at hparse
      simp only [parseLocationData] at hparse
      split at hparse
      · split at hparse
        · cases hparse
        · injection hparse with h
          exact ⟨_, h.symm⟩
      · injection hparse with h
        exact ⟨_, h.symm⟩

/-- Claim C8, witness: both pipelines at a concrete invalid-JSON body with an
always-succeeding notifier. -/
theorem claim_C8_witness :
    ((ingestHealthDataFromIssue healthBadIssue emptyStore (some okNotifier) "v").result =
        .ok ⟨false, "Error parsing health data: Unexpected token"⟩ ∧
      (ingestHealthDataFromIssue healthBadIssue emptyStore (some okNotifier) "v").writes = [] ∧
      (ingestHealthDataFromIssue healthBadIssue emptyStore (some okNotifier) "v").comments =
        ["❌ Error parsing health data: Unexpected token"]) ∧
    ((ingestLocationDataFromIssue locationBadIssue [] "2026-10-12" (some okNotifier)).result =
        .ok ⟨false, "Error parsing location data: Unexpected token"⟩ ∧
      (ingestLocationDataFromIssue locationBadIssue [] "2026-10-12" (some okNotifier)).write =
        none ∧
      (ingestLocationDataFromIssue locationBadIssue [] "2026-10-12"
          (some okNotifier)).comments =
        ["❌ Error parsing location data: Unexpected token"]) := by
  have h1 := claim_C8_theorem.1 healthBadIssue emptyStore okNotifier "v"
    "Error parsing health data: Unexpected token" rfl rfl (fun _ => rfl)
  have h2 := claim_C8_theorem.2 locationBadIssue [] "2026-10-12" okNotifier
    "Error parsing location data: Unexpected token" rfl rfl (fun _ => rfl)
  exact ⟨⟨h1.1, h1.2.1, h1.2.2.1⟩, ⟨h2.1, h2.2.1, h2.2.2.1⟩⟩

/-- Claim C9, counterexample: with a directly injected notifier that rejects,
the health ingestion of a malformed-body issue does not return its usual
`{success := false}` pair — the rejection propagates to the caller, so the
outcome differs from the one with a succeeding notifier. -/
theorem claim_C9_counterexample :
    (ingestHealthDataFromIssue healthBadIssue emptyStore (some failNotifier) "v").result ≠
      (ingestHealthDataFromIssue healthBadIssue emptyStore (some okNotifier) "v").result :=
  fun h => Except.noConfusion h

/-- Claim C9 (amended): the swallowing lives in the GitHub commenter wrapper,
not in the ingestion functions.  For any notifier wrapped by
`createGitHubCommenter` — which catches every failure of the underlying post
— both pipelines produce exactly the outcome they produce with an
always-succeeding notifier, whatever the wrapped post does. -/
theorem claim_C9_theorem :
    (∀ (post : Notifier) (issue : Issue) (store : Store) (basePath : String),
      ingestHealthDataFromIssue issue store (some (createGitHubCommenter post)) basePath =
        ingestHealthDataFromIssue issue store (some (fun _ => Except.ok ())) basePath) ∧
    (∀ (post : Notifier) (issue : Issue) (existing : List LocationEntry) (now : String),
      ingestLocationDataFromIssue issue existing now (some (createGitHubCommenter post)) =
        ingestLocationDataFromIssue issue existing now (some (fun _ => Except.ok ()))) := by
  have hgh : ∀ post : Notifier, createGitHubCommenter post = fun _ => Except.ok () := by
    intro post
    funext s
    unfold createGitHubCommenter
    cases post s <;> rfl
  exact ⟨fun post issue store basePath => by rw [hgh post],
    fun post issue existing now => by rw [hgh post]⟩

/-- Claim C10: when the metric is supported and valid but deduplication
leaves no surviving new records, `processMetric` reports success with the
no-new-data message, performs no write, and the store is unchanged. -/
theorem claim_C10_theorem {m : RawMetric} {basePath : String} {store : Store} {fp : String}
    (hpath : getMetricFilePath m.name basePath = some fp)
    (hv : validateMetric m = true)
    (hemp : (deduplicateMetrics (store fp) (dataRecords m)).filteredNewMetrics = []) :
    processMetric m basePath store =
      ⟨true, "No new data for " ++ m.name ++ " (already ingested)", none⟩ ∧
      storeAfter store (processMetric m basePath store) = store := by
  have h := processMetric_no_new_data hpath hv (by rw [hemp]; rfl)
  refine ⟨h, ?_⟩
  rw [h]
  exact storeAfter_write_none rfl

/-- Claim C10, witness: a heart-rate metric with an empty data array over the
empty vault. -/
theorem claim_C10_witness :
    processMetric emptyDataMetric "v" emptyStore =
      ⟨true, "No new data for heart_rate (already ingested)", none⟩ ∧
      storeAfter emptyStore (processMetric emptyDataMetric "v" emptyStore) = emptyStore :=
  @claim_C10_theorem emptyDataMetric "v" emptyStore "v/hr.json" rfl rfl rfl

end SOB
